import Mathlib

/-
  Verification of the Deriv binary-options trading bot (src/bot.py) and its
  websocket observer bridge (src/server.py).

  The embedding models the mutable attributes of `DerivBinaryOptionsBot` as a
  `BotState` record and each message handler as a function
  `BotState -> Outcome`, where `Outcome.halted` models the `sys.exit(1)` /
  `ws.close()` terminal paths and `Outcome.cont` carries the successor state
  together with the list of observable effects (observer notifications and
  outbound websocket sends) emitted during the call, in program order.

  Randomness (`random.choice` for the market, `random.choices` for the bet
  sequence) is modelled by an explicit `Oracle` input: each handler performs at
  most one market draw and one sequence draw, so a single oracle value per call
  suffices.  Python floats in the stake ladder are modelled as exact rationals;
  the ladder is only ever indexed, never used in arithmetic, so no float
  rounding is observable.
-/

/-- Bet direction symbols; `random.choices(['R', 'G'], k=10)` draws from this
two-symbol alphabet (source line 206). -/
inductive Dir where
  | R
  | G
deriving Repr, DecidableEq

/-- The direction-to-contract-type mapping of bot.py line 242:
`"PUT" if trade_type == 'R' else "CALL"`. -/
def contractType : Dir → String
  | Dir.R => "PUT"
  | Dir.G => "CALL"

/-- `self.active_markets`, bot.py lines 33-36; never mutated. -/
def activeMarkets : List String :=
  ["R_10", "R_25", "R_50", "R_75", "R_100",
   "1HZ10V", "1HZ25V", "1HZ50V", "1HZ75V", "1HZ100V"]

/-- `self.stakes`, bot.py lines 47-58 (exact decimal values). -/
def stakes : List ℚ :=
  [0.35, 0.60, 1.61, 4.34, 11.69, 31.49, 84.82, 228.47, 615.40, 1657.63]

/-- The dict stored in `self.active_contract` (bot.py lines 286-293). -/
structure ActiveContract where
  contract_id : Option Nat
  trade_index : Nat
  trade_type : Dir
  stake : ℚ
  buy_req_id : Option Nat
  contract_type : String
deriving Repr, DecidableEq

/-- The mutable attributes of `DerivBinaryOptionsBot` that the handlers under
verification read or write. -/
structure BotState where
  authorized : Bool
  current_market : Option String
  active_contract : Option ActiveContract
  sequence : List Dir
  current_trade_index : Nat
  consecutive_losses : Nat
  is_trading : Bool
  waiting_for_contract_settlement : Bool
  req_id : Nat
deriving Repr, DecidableEq

/-- Fields of a `proposal_open_contract` push read by
`handle_contract_update`; `.get` on a missing key yields `none`. -/
structure ContractData where
  contract_id : Option Nat
  status : Option String
  profit : Option ℚ
deriving Repr, DecidableEq

/-- Fields of a `buy` response read by `handle_buy_response`. -/
structure BuyData where
  contract_id : Option Nat
deriving Repr, DecidableEq

/-- Randomness supply for one handler call: `marketIdx` resolves the
`random.choice(self.active_markets)` draw, `seqDraw` resolves the
`random.choices(['R','G'], k=10)` draw. -/
structure Oracle where
  marketIdx : Nat
  seqDraw : Nat → Dir

/-- Observable effects of a handler call, in program order.  `log` keeps the
level argument of `notify_log` (message text is elided; no claim inspects it).
`buySend` mirrors the JSON buy request of bot.py lines 261-274;
`subscribeSend` the subscription request of lines 298-303. -/
inductive Event where
  | log (level : String)
  | statusChange
  | sequenceChange
  | tradeUpdate
  | buySend (price : ℚ) (amount : ℚ) (basis : String) (contract_type : String)
      (currency : String) (duration : Nat) (duration_unit : String)
      (symbol : String) (rid : Nat)
  | subscribeSend (contract_id : Option Nat) (rid : Nat)
deriving Repr, DecidableEq

/-- Result of a handler call: either the bot continues in a successor state, or
the process terminated via `ws.close(); sys.exit(1)`.  Both carry the events
emitted before returning/exiting. -/
inductive Outcome where
  | cont (s : BotState) (evs : List Event)
  | halted (evs : List Event)
deriving Repr, DecidableEq

/-- Prepend already-emitted events to the events of a subsequent outcome. -/
def withPre (pre : List Event) : Outcome → Outcome
  | Outcome.cont s evs => Outcome.cont s (pre ++ evs)
  | Outcome.halted evs => Outcome.halted (pre ++ evs)

/-- `self.active_contract = None` (bot.py line 375), applied to the outcome of
the preceding settlement processing. -/
def clearAC : Outcome → Outcome
  | Outcome.cont s evs => Outcome.cont { s with active_contract := none } evs
  | Outcome.halted evs => Outcome.halted evs

/-- Successor state of an outcome, if any. -/
def outState : Outcome → Option BotState
  | Outcome.cont s _ => some s
  | Outcome.halted _ => none

/-- Events of an outcome. -/
def outEvents : Outcome → List Event
  | Outcome.cont _ evs => evs
  | Outcome.halted evs => evs

/-- The market resolved by `random.choice(self.active_markets)`. -/
def marketPick (o : Oracle) : String :=
  activeMarkets.getD (o.marketIdx % activeMarkets.length) ""

/-- The length-10 sequence resolved by `random.choices(['R','G'], k=10)`. -/
def freshSeq (o : Oracle) : List Dir :=
  (List.range 10).map o.seqDraw

/-- Events of `select_random_market` (bot.py lines 200-202): a log and a
status-change notification. -/
def smEv : List Event := [Event.log "info", Event.statusChange]

/-- Events of `generate_sequence` (bot.py lines 207-209): a log and a
sequence-change notification. -/
def gsEv : List Event := [Event.log "info", Event.sequenceChange]

/-- State effect of `select_random_market` (bot.py lines 194-202).  The
`active_markets` list is a nonempty constant, so the empty-list exit path at
lines 196-198 is unreachable and not modelled. -/
def select_random_market (o : Oracle) (s : BotState) : BotState :=
  { s with current_market := some (marketPick o) }

/-- State effect of `generate_sequence` (bot.py lines 204-209). -/
def generate_sequence (o : Oracle) (s : BotState) : BotState :=
  { s with sequence := freshSeq o, current_trade_index := 0 }

/-- Result of `get_current_stake`; `exhausted` stands for the path at bot.py
lines 213-216 (error log, `ws.close()`, `sys.exit(1)`), which callers propagate
as `Outcome.halted`. -/
inductive StakeResult where
  | ok (q : ℚ)
  | exhausted
deriving Repr, DecidableEq

/-- `get_current_stake`, bot.py lines 211-218. -/
def get_current_stake (s : BotState) : StakeResult :=
  if stakes.length ≤ s.consecutive_losses then StakeResult.exhausted
  else StakeResult.ok (stakes.getD s.consecutive_losses 0)

/-- `place_trade`, bot.py lines 246-276.  The stake lookup happens before the
placement log; on exhaustion the process exits with only the exhaustion log. -/
def place_trade (ct : String) (s : BotState) : Outcome :=
  if s.authorized = true ∧ s.current_market ≠ none then
    match get_current_stake s with
    | StakeResult.exhausted => Outcome.halted [Event.log "error"]
    | StakeResult.ok q =>
        Outcome.cont
          { s with req_id := s.req_id + 1, waiting_for_contract_settlement := true }
          [Event.log "info",
           Event.buySend q q "stake" ct "USD" 1 "m" (s.current_market.getD "") s.req_id]
  else Outcome.cont s [Event.log "error"]

/-- The regeneration guard of `place_next_trade` (bot.py lines 236-238): state
part. -/
def regen_if_exhausted (o : Oracle) (s : BotState) : BotState :=
  if s.sequence.length ≤ s.current_trade_index then generate_sequence o s else s

/-- The regeneration guard of `place_next_trade`: events part (warning log plus
the `generate_sequence` notifications). -/
def regen_ev (s : BotState) : List Event :=
  if s.sequence.length ≤ s.current_trade_index then Event.log "warning" :: gsEv else []

/-- `place_next_trade`, bot.py lines 231-244. -/
def place_next_trade (o : Oracle) (s : BotState) : Outcome :=
  if s.is_trading = true ∧ s.waiting_for_contract_settlement = false then
    withPre (regen_ev s)
      (place_trade
        (contractType
          ((regen_if_exhausted o s).sequence.getD
            (regen_if_exhausted o s).current_trade_index Dir.R))
        (regen_if_exhausted o s))
  else Outcome.cont s []

/-- `start_trading_sequence`, bot.py lines 220-229.  Note the full reset
`consecutive_losses = 0` at line 228. -/
def start_trading_sequence (o : Oracle) (s : BotState) : Outcome :=
  if s.authorized = true ∧ s.current_market ≠ none then
    place_next_trade o
      { s with is_trading := true, waiting_for_contract_settlement := false,
               consecutive_losses := 0 }
  else Outcome.cont s [Event.log "error"]

/-- `handle_buy_response`, bot.py lines 278-308.  The accepted branch reads the
sequence at the cursor (line 289) with `getD` standing for Python indexing. -/
def handle_buy_response (o : Oracle) (buy : Option BuyData) (rid : Option Nat)
    (s : BotState) : Outcome :=
  match buy with
  | some b =>
      match get_current_stake s with
      | StakeResult.exhausted => Outcome.halted [Event.log "error"]
      | StakeResult.ok q =>
          Outcome.cont
            { s with
                active_contract := some
                  { contract_id := b.contract_id,
                    trade_index := s.current_trade_index,
                    trade_type := s.sequence.getD s.current_trade_index Dir.R,
                    stake := q,
                    buy_req_id := rid,
                    contract_type :=
                      contractType (s.sequence.getD s.current_trade_index Dir.R) },
                req_id := s.req_id + 1 }
            [Event.log "success", Event.subscribeSend b.contract_id s.req_id]
  | none =>
      withPre ([Event.log "error"] ++ smEv)
        (start_trading_sequence o (select_random_market o s))

/-- The `consecutive_losses += 1; current_trade_index += 1` step of the lost
branch (bot.py lines 350-351). -/
def lostBump (s : BotState) : BotState :=
  { s with consecutive_losses := s.consecutive_losses + 1,
           current_trade_index := s.current_trade_index + 1 }

/-- Events of the end-of-sequence check in the lost branch (bot.py lines
354-356): an info log plus the `generate_sequence` notifications. -/
def lostRegenEv (s : BotState) : List Event :=
  if s.sequence.length ≤ s.current_trade_index then Event.log "info" :: gsEv else []

/-- Tail of the lost branch after the end-of-sequence check (bot.py lines
358-372): max-loss exit, else next-stake log, status notification and the next
placement. -/
def settleLost3 (o : Oracle) (s3 : BotState) : Outcome :=
  if stakes.length ≤ s3.consecutive_losses then Outcome.halted [Event.log "error"]
  else
    withPre [Event.log "info", Event.statusChange]
      (clearAC (place_next_trade o s3))

/-- The lost branch of `handle_contract_update` (bot.py lines 345-372 plus the
trailing `active_contract = None`). -/
def settleLost (o : Oracle) (s1 : BotState) : Outcome :=
  withPre ([Event.tradeUpdate, Event.log "error"] ++ lostRegenEv (lostBump s1))
    (settleLost3 o (regen_if_exhausted o (lostBump s1)))

/-- The won branch of `handle_contract_update` (bot.py lines 335-343 plus the
trailing `active_contract = None`). -/
def settleWon (o : Oracle) (s1 : BotState) : Outcome :=
  withPre ([Event.tradeUpdate, Event.log "success"] ++ smEv ++ gsEv)
    (clearAC (start_trading_sequence o
      (generate_sequence o (select_random_market o { s1 with consecutive_losses := 0 }))))

/-- Settlement processing for a matching, non-open contract update (bot.py
lines 327-375): clear the waiting flag, notify the trade update, then branch on
the status. -/
def settle (o : Oracle) (upd : ContractData) (s : BotState) : Outcome :=
  if upd.status = some "won" then
    settleWon o { s with waiting_for_contract_settlement := false }
  else if upd.status = some "lost" then
    settleLost o { s with waiting_for_contract_settlement := false }
  else
    Outcome.cont
      { s with waiting_for_contract_settlement := false, active_contract := none }
      [Event.tradeUpdate]

/-- `handle_contract_update`, bot.py lines 310-375. -/
def handle_contract_update (o : Oracle) (upd : ContractData) (s : BotState) : Outcome :=
  match s.active_contract with
  | none => Outcome.cont s []
  | some ac =>
      if upd.contract_id = ac.contract_id then
        if upd.status = some "open" then Outcome.cont s []
        else settle o upd s
      else Outcome.cont s []

/-- Boolean substring containment helper: prefix test. -/
def isPrefixOfC : List Char → List Char → Bool
  | [], _ => true
  | _ :: _, [] => false
  | a :: as, b :: bs => a == b && isPrefixOfC as bs

/-- Boolean substring containment, modelling Python `needle in hay`. -/
def containsSub (needle : List Char) : List Char → Bool
  | [] => isPrefixOfC needle []
  | c :: t => isPrefixOfC needle (c :: t) || containsSub needle t

/-- `error_message.lower()` on ASCII text. -/
def lowerChars (cs : List Char) : List Char := cs.map Char.toLower

/-- The insufficient-balance test of bot.py line 161. -/
def balanceErr (msg : List Char) : Bool :=
  containsSub ("balance".toList) (lowerChars msg)
    && containsSub ("insufficient".toList) (lowerChars msg)

/-- The market-error test of bot.py line 167 (note the broad `"market" in`
second disjunct). -/
def marketErr (msg : List Char) : Bool :=
  containsSub ("market is closed".toList) (lowerChars msg)
    || containsSub ("market".toList) (lowerChars msg)

/-- The error branch of `on_message`, bot.py lines 155-170: log the API error;
exit on insufficient balance; on a market error reselect the market and restart
the trading sequence. -/
def handle_api_error (o : Oracle) (msg : List Char) (s : BotState) : Outcome :=
  if balanceErr msg = true then Outcome.halted [Event.log "error", Event.log "error"]
  else if marketErr msg = true then
    withPre ([Event.log "error", Event.log "warning"] ++ smEv)
      (start_trading_sequence o (select_random_market o s))
  else Outcome.cont s [Event.log "error"]

/-- Inbound messages as dispatched by `on_message` (bot.py lines 131-170). -/
inductive Msg where
  | authMsg
  | buyMsg (buy : Option BuyData) (rid : Option Nat)
  | contractMsg (upd : ContractData)
  | errMsg (message : List Char)
  | otherMsg

/-- One `on_message` dispatch.  The authorize branch (lines 138-144) sets the
flag, selects a market, generates a sequence and starts trading; a `buy`
message without buy data falls through every dispatch guard and does
nothing. -/
def stepMsg (o : Oracle) (m : Msg) (s : BotState) : Outcome :=
  match m with
  | Msg.authMsg =>
      withPre ([Event.log "success"] ++ smEv ++ gsEv)
        (start_trading_sequence o
          (generate_sequence o (select_random_market o { s with authorized := true })))
  | Msg.buyMsg buy rid =>
      match buy with
      | some _ => handle_buy_response o buy rid s
      | none => Outcome.cont s []
  | Msg.contractMsg upd => handle_contract_update o upd s
  | Msg.errMsg msg => handle_api_error o msg s
  | Msg.otherMsg => Outcome.cont s []

/-- Feed one message into an outcome; a halted process (`sys.exit`) receives no
further messages. -/
def stepOutcome (o : Oracle) (m : Msg) : Outcome → Outcome
  | Outcome.halted evs => Outcome.halted evs
  | Outcome.cont s evs => withPre evs (stepMsg o m s)

/-- Run a list of inbound messages (each with its randomness) from an
outcome. -/
def runMsgs : List (Oracle × Msg) → Outcome → Outcome
  | [], r => r
  | om :: l, r => runMsgs l (stepOutcome om.1 om.2 r)

/-- Does an event list contain an outbound buy request? -/
def isBuySend : Event → Bool
  | Event.buySend .. => true
  | _ => false

/-- Messages broadcast to websocket observer clients (server.py), tagged by
their `type` field. -/
inductive ServerMsg where
  | log_msg
  | status_update
  | sequence_update
  | trade_update
  | balance_update
deriving Repr, DecidableEq

/-- `getattr(self.active_contract, "contract_id", None)` (server.py line 154):
`active_contract` is either `None` or a Python dict; attribute lookup on a dict
does not see its keys (that would be item access `active_contract["contract_id"]`),
so the default `None` is returned in both cases. -/
def getattrContractId : Option ActiveContract → Option Nat
  | none => none
  | some _ => none

/-- `WebsocketDerivBot.handle_contract_update`, server.py lines 144-166: run the
base handler, then, when the guard at line 154 holds, broadcast the trade
(`trade_update` then `balance_update`), a log, and a status update when the
loss count changed.  Returns the base outcome paired with the observer
broadcasts issued by the body of the override itself.  Broadcasts issued by the
overridden inner methods (`select_random_market` etc.) are status, sequence and
log messages only and are left inside the events of the base outcome; `trade_update`
and `balance_update` messages originate solely from `broadcast_trade`
(server.py lines 76-97), which is called only from the guarded block at line
155.  If the base handler exits the process (`sys.exit`), the code of the override
after the `super()` call never runs. -/
def server_handle_contract_update (o : Oracle) (upd : ContractData) (s : BotState) :
    Outcome × List ServerMsg :=
  match handle_contract_update o upd s with
  | Outcome.halted evs => (Outcome.halted evs, [])
  | Outcome.cont s1 evs =>
      if (upd.status = some "won" ∨ upd.status = some "lost")
          ∧ upd.contract_id = getattrContractId s1.active_contract then
        (Outcome.cont s1 evs,
          [ServerMsg.trade_update, ServerMsg.balance_update, ServerMsg.log_msg]
            ++ (if s.consecutive_losses = s1.consecutive_losses then []
                else [ServerMsg.status_update]))
      else (Outcome.cont s1 evs, [])

/-! ### Concrete example inputs used by counterexamples and witnesses -/

/-- A fixed randomness supply: market index 0 (so `R_10`), all-R sequence. -/
def oC : Oracle := { marketIdx := 0, seqDraw := fun _ => Dir.R }

/-- An alternating ten-element bet sequence. -/
def seqRG : List Dir :=
  [Dir.R, Dir.G, Dir.R, Dir.G, Dir.R, Dir.G, Dir.R, Dir.G, Dir.R, Dir.G]

/-- A concrete active contract with id 7. -/
def acC : ActiveContract :=
  { contract_id := some 7, trade_index := 0, trade_type := Dir.R,
    stake := 0.35, buy_req_id := some 2, contract_type := "PUT" }

/-- A live trading state awaiting settlement of contract 7. -/
def baseState : BotState :=
  { authorized := true, current_market := some "R_50",
    active_contract := some acC, sequence := seqRG,
    current_trade_index := 0, consecutive_losses := 0,
    is_trading := true, waiting_for_contract_settlement := true, req_id := 5 }

/-- A market-closed API error message. -/
def msgClosed : List Char := "The market is closed.".toList

/-- A lost settlement push for contract 7. -/
def updLost7 : ContractData :=
  { contract_id := some 7, status := some "lost", profit := some (-0.35) }

/-- A won settlement push for contract 7. -/
def updWon7 : ContractData :=
  { contract_id := some 7, status := some "won", profit := some 0.3 }

/-- A settlement push carrying no contract id at all. -/
def updOrphan : ContractData :=
  { contract_id := none, status := some "won", profit := some 1 }

example : get_current_stake { baseState with consecutive_losses := 3 } =
    StakeResult.ok 4.34 := by simp [get_current_stake, stakes]

example : get_current_stake { baseState with consecutive_losses := 10 } =
    StakeResult.exhausted := by simp [get_current_stake, stakes]

example :
    (outState (handle_api_error oC ("The market is closed.".toList)
      { baseState with consecutive_losses := 3, active_contract := none,
                       waiting_for_contract_settlement := false })).map
      BotState.consecutive_losses = some 0 := by decide

example :
    (outState (handle_buy_response oC none (some 9)
      { baseState with consecutive_losses := 2, current_trade_index := 3,
                       active_contract := none,
                       waiting_for_contract_settlement := false })).map
      BotState.sequence = some seqRG := by decide

example :
    (outState (handle_contract_update oC
      { contract_id := some 7, status := some "lost", profit := some (-0.35) }
      { baseState with current_trade_index := 9 })).map
      BotState.current_trade_index = some 0 := by decide

example :
    handle_contract_update oC
      { contract_id := some 7, status := some "lost", profit := some (-11.69) }
      { baseState with consecutive_losses := 9 } =
    Outcome.halted [Event.tradeUpdate, Event.log "error", Event.log "error"] := by
  decide

example :
    ServerMsg.trade_update ∈
      (server_handle_contract_update oC
        { contract_id := none, status := some "won", profit := some 1 }
        { baseState with active_contract := none }).2 := by decide

/-- The state entering `place_next_trade` when `select_random_market` is
followed by `start_trading_sequence` (the common restart path of the
market-error branch, bot.py lines 169-170, and the buy-rejected branch, lines
307-308). -/
def restartState (o : Oracle) (s : BotState) : BotState :=
  { s with current_market := some (marketPick o), is_trading := true,
           waiting_for_contract_settlement := false, consecutive_losses := 0 }

/-! ### Helper lemmas -/

/-- A halted process (`sys.exit`) ignores every further inbound message. -/
theorem runMsgs_halted (l : List (Oracle × Msg)) (evs : List Event) :
    runMsgs l (Outcome.halted evs) = Outcome.halted evs := by
  induction l with
  | nil => rfl
  | cons om t ih => simpa [runMsgs, stepOutcome] using ih

theorem regen_consecutive_losses (o : Oracle) (s : BotState) :
    (regen_if_exhausted o s).consecutive_losses = s.consecutive_losses := by
  unfold regen_if_exhausted generate_sequence
  split <;> rfl

theorem regen_current_market (o : Oracle) (s : BotState) :
    (regen_if_exhausted o s).current_market = s.current_market := by
  unfold regen_if_exhausted generate_sequence
  split <;> rfl

theorem regen_authorized (o : Oracle) (s : BotState) :
    (regen_if_exhausted o s).authorized = s.authorized := by
  unfold regen_if_exhausted generate_sequence
  split <;> rfl

theorem regen_req_id (o : Oracle) (s : BotState) :
    (regen_if_exhausted o s).req_id = s.req_id := by
  unfold regen_if_exhausted generate_sequence
  split <;> rfl

theorem regen_active_contract (o : Oracle) (s : BotState) :
    (regen_if_exhausted o s).active_contract = s.active_contract := by
  unfold regen_if_exhausted generate_sequence
  split <;> rfl

/-- After the regeneration guard the cursor is strictly inside the sequence. -/
theorem regen_idx_lt (o : Oracle) (s : BotState) :
    (regen_if_exhausted o s).current_trade_index <
      (regen_if_exhausted o s).sequence.length := by
  unfold regen_if_exhausted
  split
  · simp [generate_sequence, freshSeq]
  · omega

/-- `place_trade` on an authorized state with a market and a non-exhausted
ladder sends exactly one buy request and waits for settlement. -/
theorem place_trade_cont (ct : String) (s : BotState) (m : String)
    (hau : s.authorized = true) (hm : s.current_market = some m)
    (hl : s.consecutive_losses < stakes.length) :
    place_trade ct s =
      Outcome.cont
        { s with req_id := s.req_id + 1, waiting_for_contract_settlement := true }
        [Event.log "info",
         Event.buySend (stakes.getD s.consecutive_losses 0)
           (stakes.getD s.consecutive_losses 0) "stake" ct "USD" 1 "m" m s.req_id] := by
  have hl' : ¬ stakes.length ≤ s.consecutive_losses := not_le.mpr hl
  simp [place_trade, get_current_stake, hau, hm, hl']

/-! ### Claims -/

/-- Claim C1: for every consecutive-loss count below the ladder length,
`get_current_stake` returns the ladder entry at that index exactly; at or above
the ladder length it signals exhaustion, on which trade placement halts the
process, and a halted process is terminal: no later inbound message is ever
processed (not retried, not recoverable). -/
theorem c1_stake_ladder (s : BotState) :
    (∀ h : s.consecutive_losses < stakes.length,
        get_current_stake s = StakeResult.ok (stakes.get ⟨s.consecutive_losses, h⟩))
    ∧ (stakes.length ≤ s.consecutive_losses →
        get_current_stake s = StakeResult.exhausted
        ∧ ∀ ct, s.authorized = true → s.current_market ≠ none →
            place_trade ct s = Outcome.halted [Event.log "error"])
    ∧ (∀ l evs, runMsgs l (Outcome.halted evs) = Outcome.halted evs) := by
  refine ⟨?_, ?_, fun l evs => runMsgs_halted l evs⟩
  · intro h
    have h' : ¬ stakes.length ≤ s.consecutive_losses := not_le.mpr h
    unfold get_current_stake
    rw [if_neg h', List.get_eq_getElem, List.getD_eq_getElem stakes 0 h]
  · intro h
    refine ⟨by simp [get_current_stake, h], ?_⟩
    intro ct hau hm
    simp [place_trade, get_current_stake, h, hau, hm]

/-- Witness for C1 at loss counts 3 (in range: stake 4.34) and 10
(exhausted: placement halts). -/
theorem c1_stake_ladder_witness :
    get_current_stake { baseState with consecutive_losses := 3 } = StakeResult.ok 4.34
    ∧ get_current_stake { baseState with consecutive_losses := 10 } = StakeResult.exhausted
    ∧ place_trade "PUT" { baseState with consecutive_losses := 10 } =
        Outcome.halted [Event.log "error"] := by
  refine ⟨?_, ?_, ?_⟩
  · have h := (c1_stake_ladder { baseState with consecutive_losses := 3 }).1 (by decide)
    rw [h]
    rfl
  · exact ((c1_stake_ladder { baseState with consecutive_losses := 10 }).2.1 (by decide)).1
  · exact ((c1_stake_ladder { baseState with consecutive_losses := 10 }).2.1 (by decide)).2
      "PUT" rfl (by decide)

/-- Claim C7: a contract update whose id does not match the tracked active
contract, or arriving when no active contract exists, leaves the whole state
unchanged and emits no event at all. -/
theorem c7_stale_update_noop (o : Oracle) (upd : ContractData) (s : BotState)
    (h : s.active_contract = none ∨
      ∃ ac, s.active_contract = some ac ∧ upd.contract_id ≠ ac.contract_id) :
    handle_contract_update o upd s = Outcome.cont s [] := by
  rcases h with h | ⟨ac, hac, hne⟩
  · simp [handle_contract_update, h]
  · simp [handle_contract_update, hac, hne]

/-- Witness for C7: a won update for contract 99 while contract 7 is tracked is
a complete no-op. -/
theorem c7_stale_update_noop_witness :
    handle_contract_update oC
      { contract_id := some 99, status := some "won", profit := some 1 } baseState =
      Outcome.cont baseState [] :=
  c7_stale_update_noop oC
    { contract_id := some 99, status := some "won", profit := some 1 } baseState
    (Or.inr ⟨acC, rfl, by decide⟩)

/-- Claim C9: trade placement never reads past the end of the bet sequence:
after the regeneration guard of `place_next_trade` the cursor is strictly
within the sequence, when the cursor had reached the end a fresh length-10
sequence is installed with the cursor reset to 0 (before the direction symbol
is read), otherwise the state is untouched, and the `getD` read performed by
`place_next_trade` coincides with a proven-in-range `get`. -/
theorem c9_no_out_of_range (o : Oracle) (s : BotState) :
    (regen_if_exhausted o s).current_trade_index <
        (regen_if_exhausted o s).sequence.length
    ∧ (s.sequence.length ≤ s.current_trade_index →
        (regen_if_exhausted o s).sequence = freshSeq o
        ∧ (regen_if_exhausted o s).sequence.length = 10
        ∧ (regen_if_exhausted o s).current_trade_index = 0)
    ∧ (s.current_trade_index < s.sequence.length → regen_if_exhausted o s = s)
    ∧ (regen_if_exhausted o s).sequence.getD
          (regen_if_exhausted o s).current_trade_index Dir.R =
        (regen_if_exhausted o s).sequence.get
          ⟨(regen_if_exhausted o s).current_trade_index, regen_idx_lt o s⟩ := by
  refine ⟨regen_idx_lt o s, ?_, ?_, ?_⟩
  · intro h
    simp [regen_if_exhausted, h, generate_sequence, freshSeq]
  · intro h
    simp [regen_if_exhausted, not_le.mpr h]
  · rw [List.get_eq_getElem]
    exact List.getD_eq_getElem _ _ (regen_idx_lt o s)

/-- Witness for C9 at a state whose cursor sits at the sequence end. -/
theorem c9_no_out_of_range_witness :
    (regen_if_exhausted oC { baseState with current_trade_index := 10 }).sequence =
        freshSeq oC
    ∧ (regen_if_exhausted oC { baseState with current_trade_index := 10 }).sequence.length
        = 10
    ∧ (regen_if_exhausted oC
        { baseState with current_trade_index := 10 }).current_trade_index = 0 :=
  (c9_no_out_of_range oC { baseState with current_trade_index := 10 }).2.1 (by decide)

/-- The restart path `select_random_market(); start_trading_sequence()` on an
authorized state: full reset of the loss counter, regeneration of the sequence
only when the cursor had reached its end, and one fresh buy request at the
bottom stake. -/
theorem restart_eq (o : Oracle) (s : BotState) (hau : s.authorized = true) :
    start_trading_sequence o (select_random_market o s) =
      Outcome.cont
        { regen_if_exhausted o (restartState o s) with
            req_id := s.req_id + 1, waiting_for_contract_settlement := true }
        (regen_ev (restartState o s)
          ++ [Event.log "info",
              Event.buySend (stakes.getD 0 0) (stakes.getD 0 0) "stake"
                (contractType
                  ((regen_if_exhausted o (restartState o s)).sequence.getD
                    (regen_if_exhausted o (restartState o s)).current_trade_index Dir.R))
                "USD" 1 "m" (marketPick o) s.req_id]) := by
  have h0 : ¬ stakes.length ≤ (0 : Nat) := by decide
  by_cases hreg : s.sequence.length ≤ s.current_trade_index
  · simp [start_trading_sequence, select_random_market, restartState, place_next_trade,
      regen_if_exhausted, regen_ev, generate_sequence, place_trade, get_current_stake,
      withPre, hau, hreg, h0]
  · simp [start_trading_sequence, select_random_market, restartState, place_next_trade,
      regen_if_exhausted, regen_ev, generate_sequence, place_trade, get_current_stake,
      withPre, hau, hreg, h0]

/-- Counterexample to claim C2 as stated: handling a market-closed API error on
a state with 3 consecutive losses resets the loss counter to 0 (the restart
path runs `start_trading_sequence`, which zeroes it at bot.py line 228), so the
counter is not left unchanged. -/
theorem c2_market_error_counterexample :
    (outState (handle_api_error oC msgClosed
        { baseState with consecutive_losses := 3 })).map BotState.consecutive_losses
      = some 0
    ∧ ({ baseState with consecutive_losses := 3 } : BotState).consecutive_losses = 3 := by
  decide

/-- Claim C2 (amended): handling a market-specific API error (and not an
insufficient-balance one) on an authorized state selects a new random market
and restarts trade placement, resetting the consecutive-loss counter to 0; the
sequence cursor is unchanged unless it had reached the sequence end, in which
case the sequence is regenerated and the cursor reset to 0. -/
theorem c2_market_error_reset (o : Oracle) (msg : List Char) (s : BotState)
    (hm : marketErr msg = true) (hb : balanceErr msg = false)
    (hau : s.authorized = true) :
    ∃ s1 evs, handle_api_error o msg s = Outcome.cont s1 evs
      ∧ s1.consecutive_losses = 0
      ∧ s1.current_market = some (marketPick o)
      ∧ s1.waiting_for_contract_settlement = true
      ∧ evs.any isBuySend = true
      ∧ (s.current_trade_index < s.sequence.length →
          s1.sequence = s.sequence ∧ s1.current_trade_index = s.current_trade_index)
      ∧ (s.sequence.length ≤ s.current_trade_index →
          s1.sequence = freshSeq o ∧ s1.current_trade_index = 0) := by
  have heq : handle_api_error o msg s =
      withPre ([Event.log "error", Event.log "warning"] ++ smEv)
        (start_trading_sequence o (select_random_market o s)) := by
    unfold handle_api_error
    rw [if_neg (by simp [hb]), if_pos hm]
  rw [heq, restart_eq o s hau]
  simp only [withPre]
  refine ⟨_, _, rfl, ?_, ?_, rfl, ?_, ?_, ?_⟩
  · simp [regen_consecutive_losses, restartState]
  · simp [regen_current_market, restartState]
  · simp [isBuySend]
  · intro h
    simp [regen_if_exhausted, restartState, not_le.mpr h]
  · intro h
    simp [regen_if_exhausted, restartState, generate_sequence, h]

/-- Witness for C2 (amended) at a concrete market-closed error on a state with
3 consecutive losses. -/
theorem c2_market_error_reset_witness :
    ∃ s1 evs, handle_api_error oC msgClosed { baseState with consecutive_losses := 3 }
        = Outcome.cont s1 evs
      ∧ s1.consecutive_losses = 0
      ∧ s1.current_market = some (marketPick oC)
      ∧ s1.waiting_for_contract_settlement = true
      ∧ evs.any isBuySend = true
      ∧ (({ baseState with consecutive_losses := 3 } : BotState).current_trade_index <
            ({ baseState with consecutive_losses := 3 } : BotState).sequence.length →
          s1.sequence = ({ baseState with consecutive_losses := 3 } : BotState).sequence
          ∧ s1.current_trade_index =
              ({ baseState with consecutive_losses := 3 } : BotState).current_trade_index)
      ∧ (({ baseState with consecutive_losses := 3 } : BotState).sequence.length ≤
            ({ baseState with consecutive_losses := 3 } : BotState).current_trade_index →
          s1.sequence = freshSeq oC ∧ s1.current_trade_index = 0) :=
  c2_market_error_reset oC msgClosed { baseState with consecutive_losses := 3 }
    (by decide) (by decide) (by decide)

/-- Counterexample to claim C3 as stated: a rejected buy on a state with 2
consecutive losses and cursor 3 resets the loss counter to 0 (so the counter is
not "never changed"), while the bet sequence is left as it was (so the sequence
is not reset). -/
theorem c3_buy_rejected_counterexample :
    (outState (handle_buy_response oC none (some 9)
        { baseState with consecutive_losses := 2, current_trade_index := 3 })).map
        BotState.consecutive_losses = some 0
    ∧ ({ baseState with consecutive_losses := 2, current_trade_index := 3 } :
        BotState).consecutive_losses = 2
    ∧ (outState (handle_buy_response oC none (some 9)
        { baseState with consecutive_losses := 2, current_trade_index := 3 })).map
        BotState.sequence = some seqRG := by
  decide

/-- Claim C3 (amended): a buy-rejected event (a buy response without buy data)
on an authorized state resets the consecutive-loss count to 0 and selects a new
random market, restarting placement; the bet sequence and cursor are left
unchanged unless the cursor had reached the sequence end, in which case the
sequence is regenerated and the cursor reset to 0. -/
theorem c3_buy_rejected_reset (o : Oracle) (rid : Option Nat) (s : BotState)
    (hau : s.authorized = true) :
    ∃ s1 evs, handle_buy_response o none rid s = Outcome.cont s1 evs
      ∧ s1.consecutive_losses = 0
      ∧ s1.current_market = some (marketPick o)
      ∧ (s.current_trade_index < s.sequence.length →
          s1.sequence = s.sequence ∧ s1.current_trade_index = s.current_trade_index)
      ∧ (s.sequence.length ≤ s.current_trade_index →
          s1.sequence = freshSeq o ∧ s1.current_trade_index = 0) := by
  have heq : handle_buy_response o none rid s =
      withPre ([Event.log "error"] ++ smEv)
        (start_trading_sequence o (select_random_market o s)) := rfl
  rw [heq, restart_eq o s hau]
  simp only [withPre]
  refine ⟨_, _, rfl, ?_, ?_, ?_, ?_⟩
  · simp [regen_consecutive_losses, restartState]
  · simp [regen_current_market, restartState]
  · intro h
    simp [regen_if_exhausted, restartState, not_le.mpr h]
  · intro h
    simp [regen_if_exhausted, restartState, generate_sequence, h]

/-- Witness for C3 (amended) at a concrete rejected buy on a state with 2
consecutive losses and cursor 3. -/
theorem c3_buy_rejected_reset_witness :
    ∃ s1 evs, handle_buy_response oC none (some 9)
        { baseState with consecutive_losses := 2, current_trade_index := 3 }
        = Outcome.cont s1 evs
      ∧ s1.consecutive_losses = 0
      ∧ s1.current_market = some (marketPick oC)
      ∧ (({ baseState with consecutive_losses := 2, current_trade_index := 3 } :
            BotState).current_trade_index <
          ({ baseState with consecutive_losses := 2, current_trade_index := 3 } :
            BotState).sequence.length →
          s1.sequence =
              ({ baseState with consecutive_losses := 2, current_trade_index := 3 } :
                BotState).sequence
          ∧ s1.current_trade_index =
              ({ baseState with consecutive_losses := 2, current_trade_index := 3 } :
                BotState).current_trade_index)
      ∧ (({ baseState with consecutive_losses := 2, current_trade_index := 3 } :
            BotState).sequence.length ≤
          ({ baseState with consecutive_losses := 2, current_trade_index := 3 } :
            BotState).current_trade_index →
          s1.sequence = freshSeq oC ∧ s1.current_trade_index = 0) :=
  c3_buy_rejected_reset oC (some 9)
    { baseState with consecutive_losses := 2, current_trade_index := 3 } (by decide)

/-- Claim C5: when a lost settlement makes the consecutive-loss count reach the
ladder length, the engine halts (the `sys.exit(1)` path at bot.py lines
359-362), the events emitted on the way out contain no buy request, and the
halted process never emits anything on any further inbound message. -/
theorem c5_exhaustion_halts (o : Oracle) (upd : ContractData) (s : BotState)
    (ac : ActiveContract) (hac : s.active_contract = some ac)
    (hid : upd.contract_id = ac.contract_id) (hst : upd.status = some "lost")
    (hx : s.consecutive_losses + 1 = stakes.length) :
    ∃ evs, handle_contract_update o upd s = Outcome.halted evs
      ∧ evs.any isBuySend = false
      ∧ ∀ l, runMsgs l (Outcome.halted evs) = Outcome.halted evs := by
  have hne1 : (some "lost" : Option String) ≠ some "won" := by decide
  have hne2 : (some "lost" : Option String) ≠ some "open" := by decide
  have h3 : stakes.length ≤
      (regen_if_exhausted o
        (lostBump { s with waiting_for_contract_settlement := false })).consecutive_losses := by
    rw [regen_consecutive_losses]
    simp only [lostBump]
    omega
  refine ⟨[Event.tradeUpdate, Event.log "error"]
      ++ lostRegenEv (lostBump { s with waiting_for_contract_settlement := false })
      ++ [Event.log "error"], ?_, ?_, fun l => runMsgs_halted l _⟩
  · have step1 : handle_contract_update o upd s = settle o upd s := by
      simp [handle_contract_update, hac, hid, hst, hne2]
    have step2 : settle o upd s =
        settleLost o { s with waiting_for_contract_settlement := false } := by
      simp [settle, hst]
    rw [step1, step2]
    unfold settleLost settleLost3
    rw [if_pos h3]
    simp [withPre]
  · unfold lostRegenEv
    split <;> simp [isBuySend, gsEv]

/-- Witness for C5: a ninth consecutive loss (count 9 → 10 = ladder length)
halts the bot. -/
theorem c5_exhaustion_halts_witness :
    ∃ evs, handle_contract_update oC updLost7 { baseState with consecutive_losses := 9 }
        = Outcome.halted evs
      ∧ evs.any isBuySend = false
      ∧ ∀ l, runMsgs l (Outcome.halted evs) = Outcome.halted evs :=
  c5_exhaustion_halts oC updLost7 { baseState with consecutive_losses := 9 } acC
    rfl rfl rfl (by decide)

/-- Reduction of `handle_contract_update` to the lost branch for a matching
lost settlement. -/
theorem lost_settle_eq (o : Oracle) (upd : ContractData) (s : BotState)
    (ac : ActiveContract) (hac : s.active_contract = some ac)
    (hid : upd.contract_id = ac.contract_id) (hst : upd.status = some "lost") :
    handle_contract_update o upd s =
      settleLost o { s with waiting_for_contract_settlement := false } := by
  have hne2 : (some "lost" : Option String) ≠ some "open" := by decide
  have step1 : handle_contract_update o upd s = settle o upd s := by
    simp [handle_contract_update, hac, hid, hst, hne2]
  rw [step1]
  simp [settle, hst]

/-- Reduction of `handle_contract_update` to the won branch for a matching won
settlement. -/
theorem won_settle_eq (o : Oracle) (upd : ContractData) (s : BotState)
    (ac : ActiveContract) (hac : s.active_contract = some ac)
    (hid : upd.contract_id = ac.contract_id) (hst : upd.status = some "won") :
    handle_contract_update o upd s =
      settleWon o { s with waiting_for_contract_settlement := false } := by
  have hne2 : (some "won" : Option String) ≠ some "open" := by decide
  have step1 : handle_contract_update o upd s = settle o upd s := by
    simp [handle_contract_update, hac, hid, hst, hne2]
  rw [step1]
  simp [settle, hst]

/-- `place_next_trade` on a state whose cursor is already in range never
regenerates, never halts below ladder exhaustion, and leaves the loss counter,
cursor and sequence untouched. -/
theorem place_next_trade_meta (o : Oracle) (s : BotState)
    (hin : s.current_trade_index < s.sequence.length)
    (hl : s.consecutive_losses < stakes.length) :
    ∃ t evs, place_next_trade o s = Outcome.cont t evs
      ∧ t.consecutive_losses = s.consecutive_losses
      ∧ t.current_trade_index = s.current_trade_index
      ∧ t.sequence = s.sequence := by
  have hreg : regen_if_exhausted o s = s := by
    simp [regen_if_exhausted, not_le.mpr hin]
  have hsk : get_current_stake s = StakeResult.ok (stakes.getD s.consecutive_losses 0) := by
    simp [get_current_stake, not_le.mpr hl]
  unfold place_next_trade place_trade
  rw [hreg, hsk]
  split
  · split
    · refine ⟨{ s with req_id := s.req_id + 1, waiting_for_contract_settlement := true },
        regen_ev s ++ [Event.log "info",
          Event.buySend (stakes.getD s.consecutive_losses 0)
            (stakes.getD s.consecutive_losses 0) "stake"
            (contractType (s.sequence.getD s.current_trade_index Dir.R)) "USD" 1 "m"
            (s.current_market.getD "") s.req_id],
        ?_, by simp, by simp, by simp⟩
      simp [withPre]
    · exact ⟨s, regen_ev s ++ [Event.log "error"], by simp [withPre], rfl, rfl, rfl⟩
  · exact ⟨s, [], rfl, rfl, rfl, rfl⟩

/-- Counterexample to claim C4 as stated: a lost settlement at cursor 9 of a
ten-element sequence regenerates the sequence and resets the cursor to 0, so
the cursor after processing can be smaller than before. -/
theorem c4_lost_counterexample :
    (outState (handle_contract_update oC updLost7
        { baseState with current_trade_index := 9 })).map BotState.current_trade_index
      = some 0
    ∧ ({ baseState with current_trade_index := 9 } : BotState).current_trade_index = 9 := by
  decide

/-- Claim C4 (amended): a matching lost settlement that does not exhaust the
ladder increments the consecutive-loss count by exactly 1; the cursor advances
by exactly 1 unless the advanced cursor reaches the sequence length, in which
case the sequence is regenerated and the cursor reset to 0. -/
theorem c4_lost_increment (o : Oracle) (upd : ContractData) (s : BotState)
    (ac : ActiveContract) (hac : s.active_contract = some ac)
    (hid : upd.contract_id = ac.contract_id) (hst : upd.status = some "lost")
    (hnx : s.consecutive_losses + 1 < stakes.length) :
    ∃ s1 evs, handle_contract_update o upd s = Outcome.cont s1 evs
      ∧ s1.consecutive_losses = s.consecutive_losses + 1
      ∧ (s.current_trade_index + 1 < s.sequence.length →
          s1.current_trade_index = s.current_trade_index + 1 ∧ s1.sequence = s.sequence)
      ∧ (s.sequence.length ≤ s.current_trade_index + 1 →
          s1.current_trade_index = 0 ∧ s1.sequence = freshSeq o) := by
  rw [lost_settle_eq o upd s ac hac hid hst]
  unfold settleLost settleLost3
  by_cases hreg : s.sequence.length ≤ s.current_trade_index + 1
  · have h2 : regen_if_exhausted o
        (lostBump { s with waiting_for_contract_settlement := false }) =
        generate_sequence o (lostBump { s with waiting_for_contract_settlement := false }) := by
      simp [regen_if_exhausted, lostBump, hreg]
    rw [h2]
    have hnl : ¬ stakes.length ≤
        (generate_sequence o
          (lostBump { s with waiting_for_contract_settlement := false })).consecutive_losses := by
      simp [generate_sequence, lostBump]
      omega
    rw [if_neg hnl]
    obtain ⟨t, evs, hpl, hcl, hidx, hseq⟩ :=
      place_next_trade_meta o
        (generate_sequence o (lostBump { s with waiting_for_contract_settlement := false }))
        (by simp [generate_sequence, freshSeq]) (by simp [generate_sequence, lostBump]; omega)
    rw [hpl]
    refine ⟨_, _, rfl, ?_, ?_, ?_⟩
    · simpa [generate_sequence, lostBump] using hcl
    · intro h
      omega
    · intro h
      constructor
      · simpa [generate_sequence, lostBump] using hidx
      · simpa [generate_sequence, lostBump] using hseq
  · have h2 : regen_if_exhausted o
        (lostBump { s with waiting_for_contract_settlement := false }) =
        lostBump { s with waiting_for_contract_settlement := false } := by
      simp [regen_if_exhausted, lostBump]
      omega
    rw [h2]
    have hnl : ¬ stakes.length ≤
        (lostBump { s with waiting_for_contract_settlement := false }).consecutive_losses := by
      simp [lostBump]
      omega
    rw [if_neg hnl]
    obtain ⟨t, evs, hpl, hcl, hidx, hseq⟩ :=
      place_next_trade_meta o
        (lostBump { s with waiting_for_contract_settlement := false })
        (by simp [lostBump]; omega) (by simp [lostBump]; omega)
    rw [hpl]
    refine ⟨_, _, rfl, ?_, ?_, ?_⟩
    · simpa [lostBump] using hcl
    · intro h
      constructor
      · simpa [lostBump] using hidx
      · simpa [lostBump] using hseq
    · intro h
      omega

/-- Witness for C4 (amended): a first loss at cursor 3 moves the counter to 1
and the cursor to 4 with the sequence kept. -/
theorem c4_lost_increment_witness :
    ∃ s1 evs, handle_contract_update oC updLost7
        { baseState with current_trade_index := 3 } = Outcome.cont s1 evs
      ∧ s1.consecutive_losses =
          ({ baseState with current_trade_index := 3 } : BotState).consecutive_losses + 1
      ∧ (({ baseState with current_trade_index := 3 } : BotState).current_trade_index + 1 <
            ({ baseState with current_trade_index := 3 } : BotState).sequence.length →
          s1.current_trade_index =
              ({ baseState with current_trade_index := 3 } : BotState).current_trade_index + 1
          ∧ s1.sequence = ({ baseState with current_trade_index := 3 } : BotState).sequence)
      ∧ (({ baseState with current_trade_index := 3 } : BotState).sequence.length ≤
            ({ baseState with current_trade_index := 3 } : BotState).current_trade_index + 1 →
          s1.current_trade_index = 0 ∧ s1.sequence = freshSeq oC) :=
  c4_lost_increment oC updLost7 { baseState with current_trade_index := 3 } acC
    rfl rfl rfl (by decide)

/-- Full evaluation of the won branch on an authorized state: loss counter
zeroed, fresh market and sequence, cursor 0, active contract cleared, and one
buy request at the bottom stake. -/
theorem settleWon_eq (o : Oracle) (s1 : BotState) (hau : s1.authorized = true) :
    settleWon o s1 = Outcome.cont
      { s1 with consecutive_losses := 0, current_market := some (marketPick o),
                sequence := freshSeq o, current_trade_index := 0, is_trading := true,
                waiting_for_contract_settlement := true, active_contract := none,
                req_id := s1.req_id + 1 }
      ([Event.tradeUpdate, Event.log "success"] ++ smEv ++ gsEv
        ++ [Event.log "info",
            Event.buySend (stakes.getD 0 0) (stakes.getD 0 0) "stake"
              (contractType ((freshSeq o).getD 0 Dir.R)) "USD" 1 "m"
              (marketPick o) s1.req_id]) := by
  have h0 : ¬ stakes.length ≤ (0 : Nat) := by decide
  simp [settleWon, select_random_market, generate_sequence, start_trading_sequence,
    place_next_trade, regen_if_exhausted, regen_ev, place_trade, get_current_stake,
    clearAC, withPre, hau, h0, freshSeq]

/-- Claim C6: a matching won settlement on an authorized state resets the
consecutive-loss count to 0 whatever its prior value, selects a new random
market, regenerates the bet sequence (cursor 0), clears the active contract and
places the next trade (a buy request is emitted and the engine waits for
settlement again). -/
theorem c6_won_resets (o : Oracle) (upd : ContractData) (s : BotState)
    (ac : ActiveContract) (hac : s.active_contract = some ac)
    (hid : upd.contract_id = ac.contract_id) (hst : upd.status = some "won")
    (hau : s.authorized = true) :
    ∃ s1 evs, handle_contract_update o upd s = Outcome.cont s1 evs
      ∧ s1.consecutive_losses = 0
      ∧ s1.current_market = some (marketPick o)
      ∧ s1.sequence = freshSeq o
      ∧ s1.current_trade_index = 0
      ∧ s1.active_contract = none
      ∧ s1.waiting_for_contract_settlement = true
      ∧ evs.any isBuySend = true := by
  rw [won_settle_eq o upd s ac hac hid hst,
    settleWon_eq o { s with waiting_for_contract_settlement := false } hau]
  exact ⟨_, _, rfl, rfl, rfl, rfl, rfl, rfl, rfl, by simp [isBuySend, smEv, gsEv]⟩

/-- Witness for C6 at a won settlement of contract 7 on a state with 4
consecutive losses. -/
theorem c6_won_resets_witness :
    ∃ s1 evs, handle_contract_update oC updWon7
        { baseState with consecutive_losses := 4 } = Outcome.cont s1 evs
      ∧ s1.consecutive_losses = 0
      ∧ s1.current_market = some (marketPick oC)
      ∧ s1.sequence = freshSeq oC
      ∧ s1.current_trade_index = 0
      ∧ s1.active_contract = none
      ∧ s1.waiting_for_contract_settlement = true
      ∧ evs.any isBuySend = true :=
  c6_won_resets oC updWon7 { baseState with consecutive_losses := 4 } acC
    rfl rfl rfl rfl

/-- Claim C8: every placement maps the direction symbol at the cursor through
R → "PUT" / G → "CALL", takes the stake from the ladder at the consecutive-loss
count, and requests a fixed duration of 1 with unit "m" (one minute), buying on
the currently selected market. -/
theorem c8_trade_mapping (o : Oracle) (s : BotState) (m : String)
    (htr : s.is_trading = true) (hw : s.waiting_for_contract_settlement = false)
    (hau : s.authorized = true) (hm : s.current_market = some m)
    (hl : s.consecutive_losses < stakes.length) :
    place_next_trade o s =
      Outcome.cont
        { regen_if_exhausted o s with
            req_id := s.req_id + 1, waiting_for_contract_settlement := true }
        (regen_ev s
          ++ [Event.log "info",
              Event.buySend (stakes.getD s.consecutive_losses 0)
                (stakes.getD s.consecutive_losses 0) "stake"
                (contractType ((regen_if_exhausted o s).sequence.getD
                  (regen_if_exhausted o s).current_trade_index Dir.R))
                "USD" 1 "m" m s.req_id])
    ∧ contractType Dir.R = "PUT" ∧ contractType Dir.G = "CALL" := by
  refine ⟨?_, rfl, rfl⟩
  unfold place_next_trade
  rw [if_pos ⟨htr, hw⟩,
    place_trade_cont _ _ m (by rw [regen_authorized]; exact hau)
      (by rw [regen_current_market]; exact hm)
      (by rw [regen_consecutive_losses]; exact hl)]
  simp [withPre, regen_consecutive_losses, regen_req_id]

/-- Witness for C8 on a ready-to-trade state at cursor 0 with 0 losses. -/
theorem c8_trade_mapping_witness :
    place_next_trade oC { baseState with waiting_for_contract_settlement := false } =
      Outcome.cont
        { regen_if_exhausted oC { baseState with waiting_for_contract_settlement := false } with
            req_id := ({ baseState with waiting_for_contract_settlement := false } :
              BotState).req_id + 1,
            waiting_for_contract_settlement := true }
        (regen_ev { baseState with waiting_for_contract_settlement := false }
          ++ [Event.log "info",
              Event.buySend
                (stakes.getD ({ baseState with waiting_for_contract_settlement := false } :
                  BotState).consecutive_losses 0)
                (stakes.getD ({ baseState with waiting_for_contract_settlement := false } :
                  BotState).consecutive_losses 0) "stake"
                (contractType
                  ((regen_if_exhausted oC
                      { baseState with waiting_for_contract_settlement := false }).sequence.getD
                    (regen_if_exhausted oC
                      { baseState with waiting_for_contract_settlement := false }).current_trade_index
                    Dir.R))
                "USD" 1 "m" "R_50"
                ({ baseState with waiting_for_contract_settlement := false } :
                  BotState).req_id])
    ∧ contractType Dir.R = "PUT" ∧ contractType Dir.G = "CALL" :=
  c8_trade_mapping oC { baseState with waiting_for_contract_settlement := false } "R_50"
    rfl rfl rfl rfl (by decide)

/-- Counterexample to claim C10 as stated: a won settlement push that carries
no contract id at all, arriving while no active contract is tracked, makes the
guard at server.py line 154 compare `None == None`, so `broadcast_trade` (a
`trade_update` followed by a `balance_update`) IS sent to observers. -/
theorem c10_guard_counterexample :
    ServerMsg.trade_update ∈
      (server_handle_contract_update oC updOrphan
        { baseState with active_contract := none }).2
    ∧ ServerMsg.balance_update ∈
      (server_handle_contract_update oC updOrphan
        { baseState with active_contract := none }).2 := by
  decide

/-- Claim C10 (amended): for every contract update with status "won" or "lost"
that carries a non-null contract id, the guard at server.py line 154 compares
that id against `getattr(self.active_contract, "contract_id", None)`, which is
always `None` (the base handler stores a dict, or has cleared the field), so
the guard is false and neither `broadcast_trade` nor the subsequent
`balance_update` message is ever sent to observers. -/
theorem c10_no_trade_broadcast (o : Oracle) (upd : ContractData) (s : BotState)
    (cid : Nat) (hcid : upd.contract_id = some cid)
    (_hst : upd.status = some "won" ∨ upd.status = some "lost") :
    (server_handle_contract_update o upd s).2 = [] := by
  unfold server_handle_contract_update
  cases hh : handle_contract_update o upd s with
  | halted evs => simp
  | cont s1 evs =>
      have hng : ¬ ((upd.status = some "won" ∨ upd.status = some "lost")
          ∧ upd.contract_id = getattrContractId s1.active_contract) := by
        rintro ⟨-, h2⟩
        rw [hcid] at h2
        cases hc : s1.active_contract <;> rw [hc] at h2 <;>
          simp [getattrContractId] at h2
      simp [hng]

/-- Witness for C10 (amended): a won settlement of the tracked contract 7
produces no observer trade broadcast at all. -/
theorem c10_no_trade_broadcast_witness :
    (server_handle_contract_update oC updWon7 baseState).2 = [] :=
  c10_no_trade_broadcast oC updWon7 baseState 7 rfl (Or.inl rfl)
